import Mathlib

/-
Shallow embedding of `python/ucxx/core.py` (the asynchronous UCX communication
layer): the handshake tag exchange, the Endpoint lifecycle and send/recv
gating, and the ApplicationContext progress/notifier setup.

Python machine integers are modelled as `Nat` with explicit reduction
modulo 2^64 where the source relies on 64-bit wrap-around; fallible Python
code is modelled with `Except PyErr`.  Buffers and logging are elided: no
claim below depends on buffer contents or log output.
-/

deriving instance DecidableEq for Except

namespace Ucxx

/-- The Python exceptions the embedded code can raise, by class.
`attributeError` is what CPython raises when an attribute such as
`raise_on_error` or `worker` is looked up on `None`; `typeError` when `None`
is subscripted; `nameError` when an unbound name is evaluated;
`runtimeError` is the class used by the checksum failure in
`exchange_peer_info`; `ucxError`, `ucxCloseError` and `ucxCanceled` are the
exception classes imported from `._lib.libucxx`. -/
inductive PyErr where
  | attributeError
  | typeError
  | nameError
  | runtimeError
  | ucxError
  | ucxCloseError
  | ucxCanceled
deriving DecidableEq

/-- Arguments that `core.py` passes to `hash64bits`: Python strings, ints
and byte strings (`os.urandom` seeds). -/
inductive PyVal where
  | pstr : String → PyVal
  | pnat : Nat → PyVal
  | pbytes : List Nat → PyVal

/-- One FNV-1a style mixing step, kept inside 64 bits. -/
def mixStep (acc x : Nat) : Nat :=
  (acc * 1099511628211 + (x + 1)) % 18446744073709551616

/-- Fold one Python value into the running hash, with a distinct marker per
type so `"1"` and `1` mix differently. -/
def pyValMix (acc : Nat) : PyVal → Nat
  | .pstr s => s.data.foldl (fun a ch => mixStep a ch.toNat) (mixStep acc 2)
  | .pnat n => mixStep (mixStep acc 0) n
  | .pbytes bs => bs.foldl mixStep (mixStep acc 1)

/-- Modelled from the spec: `hash64bits` is imported from `.utils`, which is
not among the provided sources.  Spec section 4.1 requires a deterministic,
well-mixed 64-bit hash of the argument tuple; it is modelled as an FNV-style
fold over the arguments reduced modulo 2^64. -/
def hash64bits (args : List PyVal) : Nat :=
  (args.foldl pyValMix 14695981039346656037) % 18446744073709551616

/-- `hash64bits(a, b)` on two ints, as used for the handshake checksum
(line 49, 71) and for user-tag namespacing (lines 645, 698, 767, 821). -/
def hash2 (a b : Nat) : Nat := hash64bits [.pnat a, .pnat b]

/-- The tag generation of `_listener_handler_coroutine` (lines 92-93) and
`ApplicationContext.create_endpoint` (lines 405-406):
`hash64bits(role, seed, endpoint.handle)`. -/
def genTag (role : String) (seed : List Nat) (handle : Nat) : Nat :=
  hash64bits [.pstr role, .pbytes seed, .pnat handle]

theorem hash64bits_lt (args : List PyVal) : hash64bits args < 18446744073709551616 :=
  Nat.mod_lt _ (by norm_num)

theorem hash2_lt (a b : Nat) : hash2 a b < 18446744073709551616 :=
  hash64bits_lt _

/-- `struct.pack("Q", n)`: one little-endian unsigned 64-bit field as eight
bytes.  (`struct.pack` raises on values outside 64 bits; all theorems carry
the `< 2^64` bound instead.) -/
def packQ (n : Nat) : List Nat :=
  [n % 256, n / 256 % 256, n / 65536 % 256, n / 16777216 % 256,
   n / 4294967296 % 256, n / 1099511627776 % 256,
   n / 281474976710656 % 256, n / 72057594037927936 % 256]

/-- `struct.pack("QQQ", a, b, c)` (line 49): three fixed-width 8-byte
fields. -/
def packQQQ (a b c : Nat) : List Nat := packQ a ++ packQ b ++ packQ c

/-- Little-endian reassembly of eight bytes. -/
def unpackLE8 (b0 b1 b2 b3 b4 b5 b6 b7 : Nat) : Nat :=
  b0 + 256 * b1 + 65536 * b2 + 16777216 * b3 + 4294967296 * b4 +
    1099511627776 * b5 + 281474976710656 * b6 + 72057594037927936 * b7

/-- `struct.unpack("QQQ", peer_info)` (line 69) on a 24-byte buffer. -/
def unpackQQQ (bs : List Nat) : Nat × Nat × Nat :=
  match bs with
  | [a0, a1, a2, a3, a4, a5, a6, a7,
     b0, b1, b2, b3, b4, b5, b6, b7,
     c0, c1, c2, c3, c4, c5, c6, c7] =>
    (unpackLE8 a0 a1 a2 a3 a4 a5 a6 a7,
     unpackLE8 b0 b1 b2 b3 b4 b5 b6 b7,
     unpackLE8 c0 c1 c2 c3 c4 c5 c6 c7)
  | _ => (0, 0, 0)

/-- The `(msg_tag, ctrl_tag, checksum)` triple unpacked from the peer
(lines 68-69). -/
structure PeerInfo where
  msg_tag : Nat
  ctrl_tag : Nat
  checksum : Nat
deriving DecidableEq

/-- The two stream transfers of `exchange_peer_info` plus the forced
suspension points: `req = endpoint.stream_send(...)` / `stream_recv(...)`
each followed by `await req.wait()` (lines 56-65). -/
inductive StreamAction where
  | streamSend
  | streamRecv
  | awaitPoint
deriving DecidableEq

/-- The unpack-and-validate tail of `exchange_peer_info` (lines 67-78):
unpack the 24 received bytes, recompute `hash64bits(msg_tag, ctrl_tag)` and
raise `RuntimeError` unless it equals the received checksum. -/
def exchangeValidate (peer_info : List Nat) : Except PyErr PeerInfo :=
  let u := unpackQQQ peer_info
  let ret : PeerInfo := ⟨u.1, u.2.1, u.2.2⟩
  let expected_checksum := hash2 ret.msg_tag ret.ctrl_tag
  if expected_checksum ≠ ret.checksum then .error .runtimeError
  else .ok ret

/-- What a run of `exchange_peer_info` does: the ordered trace of stream
operations, the 24 bytes sent (`my_info`, line 49), and the validated peer
info (or the checksum failure). -/
structure ExchangeResult where
  trace : List StreamAction
  sent : List Nat
  result : Except PyErr PeerInfo

/-- The `my_info` buffer packed on line 49:
`struct.pack("QQQ", msg_tag, ctrl_tag, hash64bits(msg_tag, ctrl_tag))`. -/
def myInfo (msg_tag ctrl_tag : Nat) : List Nat :=
  packQQQ msg_tag ctrl_tag (hash2 msg_tag ctrl_tag)

/-- `exchange_peer_info(endpoint, msg_tag, ctrl_tag, listener)`
(lines 44-78).  `peer_bytes` is what the transport delivers into
`peer_info`; the trace records the role-fixed transfer order of
lines 56-65 with the forced `await` after each transfer. -/
def exchange_peer_info (msg_tag ctrl_tag : Nat) (listener : Bool)
    (peer_bytes : List Nat) : ExchangeResult :=
  { trace :=
      if listener then
        [.streamSend, .awaitPoint, .streamRecv, .awaitPoint]
      else
        [.streamRecv, .awaitPoint, .streamSend, .awaitPoint]
    sent := myInfo msg_tag ctrl_tag
    result := exchangeValidate peer_bytes }

/-- The `tags` dict built by `_listener_handler_coroutine` (lines 101-106)
and `create_endpoint` (lines 413-418). -/
structure Tags where
  msg_send : Nat
  msg_recv : Nat
  ctrl_send : Nat
  ctrl_recv : Nat
deriving DecidableEq

/-- Lines 101-106: the listener side keeps its own tags for receiving and
the peer tags for sending. -/
def listenerHandlerTags (msg_tag ctrl_tag : Nat) (peer : PeerInfo) : Tags :=
  { msg_send := peer.msg_tag
    msg_recv := msg_tag
    ctrl_send := peer.ctrl_tag
    ctrl_recv := ctrl_tag }

/-- Lines 413-418: the connector side builds its tag dict the same way. -/
def createEndpointTags (msg_tag ctrl_tag : Nat) (peer : PeerInfo) : Tags :=
  { msg_send := peer.msg_tag
    msg_recv := msg_tag
    ctrl_send := peer.ctrl_tag
    ctrl_recv := ctrl_tag }

/-- The listener-side handshake outcome: run `exchange_peer_info` with
`listener=True` and build the tag dict from the validated peer info
(lines 95-106). -/
def listenerSideTags (msg_tag ctrl_tag : Nat) (peer_bytes : List Nat) :
    Except PyErr Tags :=
  match (exchange_peer_info msg_tag ctrl_tag true peer_bytes).result with
  | .error e => .error e
  | .ok p => .ok (listenerHandlerTags msg_tag ctrl_tag p)

/-- The connector-side handshake outcome: `exchange_peer_info` with
`listener=False` then the tag dict of lines 413-418. -/
def connectorSideTags (msg_tag ctrl_tag : Nat) (peer_bytes : List Nat) :
    Except PyErr Tags :=
  match (exchange_peer_info msg_tag ctrl_tag false peer_bytes).result with
  | .error e => .error e
  | .ok p => .ok (createEndpointTags msg_tag ctrl_tag p)

theorem unpack_packQQQ (a b c : Nat)
    (ha : a < 18446744073709551616) (hb : b < 18446744073709551616)
    (hc : c < 18446744073709551616) :
    unpackQQQ (packQQQ a b c) = (a, b, c) := by
  simp only [packQQQ, packQ, List.cons_append, List.nil_append, unpackQQQ,
    unpackLE8, Prod.mk.injEq]
  refine ⟨?_, ?_, ?_⟩ <;> omega

theorem exchangeValidate_myInfo (m c : Nat)
    (hm : m < 18446744073709551616) (hc : c < 18446744073709551616) :
    exchangeValidate (myInfo m c) = .ok ⟨m, c, hash2 m c⟩ := by
  unfold exchangeValidate myInfo
  rw [unpack_packQQQ m c (hash2 m c) hm hc (hash2_lt m c)]
  simp

/-- The `ucx_api.UCXEndpoint` handle an `Endpoint` owns (`self._ep`): its
native handle value, the liveness `is_alive()` reports, and the transport
error `raise_on_error()` would raise (none when the connection is
healthy). -/
structure UCXEndpoint where
  handle : Nat
  alive : Bool
  err : Option PyErr
deriving DecidableEq

/-- `self._ep.raise_on_error()`: raises the recorded transport error, if
any. -/
def UCXEndpoint.raiseOnError (h : UCXEndpoint) : Except PyErr Unit :=
  match h.err with
  | some e => .error e
  | none => .ok ()

/-- The Python-level attributes `Endpoint.__init__` sets (lines 566-573).
`_ep` and `_ctx` become `None` on `abort()`; `_ctx` is modelled as a mere
presence marker since recv only dereferences `self._ctx.worker`. -/
structure EndpointState where
  _ep : Option UCXEndpoint
  _ctx : Option Unit
  _send_count : Nat
  _recv_count : Nat
  _finished_recv_count : Nat
  _shutting_down_peer : Bool
  _close_after_n_recv : Option Nat
  _tags : Option Tags
deriving DecidableEq

/-- `Endpoint.closed()` (lines 580-582):
`self._ep is None or not self._ep.is_alive()`. -/
def EndpointState.closed (s : EndpointState) : Bool :=
  match s._ep with
  | none => true
  | some h => !h.alive

/-- `Endpoint.abort()` (lines 584-594): drops the handle and the context
back-reference; nothing else changes and the peer is not notified. -/
def EndpointState.abort (s : EndpointState) : EndpointState :=
  { s with _ep := none, _ctx := none }

/-- Python `hash()` of a nonnegative int user tag on 64-bit CPython:
reduction modulo the Mersenne prime 2^61 - 1. -/
def pyHash (n : Nat) : Nat := n % 2305843009213693951

/-- The tag-selection branch of `Endpoint.send` (lines 642-645): `None`
yields the negotiated `msg_send` tag, a user tag is namespaced through
`hash64bits` unless `force_tag` is set.  Subscripting `self._tags` while it
is `None` is a `TypeError`. -/
def resolveSendTag (tags : Option Tags) (tag : Option Nat) (force_tag : Bool) :
    Except PyErr Nat :=
  match tag with
  | none =>
    match tags with
    | none => .error .typeError
    | some ts => .ok ts.msg_send
  | some t =>
    if force_tag then .ok t
    else
      match tags with
      | none => .error .typeError
      | some ts => .ok (hash2 ts.msg_send (pyHash t))

/-- The tag-selection branch of `Endpoint.recv` (lines 764-767), based on
`msg_recv`. -/
def resolveRecvTag (tags : Option Tags) (tag : Option Nat) (force_tag : Bool) :
    Except PyErr Nat :=
  match tag with
  | none =>
    match tags with
    | none => .error .typeError
    | some ts => .ok ts.msg_recv
  | some t =>
    if force_tag then .ok t
    else
      match tags with
      | none => .error .typeError
      | some ts => .ok (hash2 ts.msg_recv (pyHash t))

/-- The synchronous prefix of `Endpoint.send` (lines 637-659, buffers and
logging elided): `self._ep.raise_on_error()` — an attribute lookup on
`None` when the endpoint was aborted — then the closed gate, tag selection
and the send-counter increment.  Returns the wire tag that
`self._ep.tag_send` is invoked with, and the updated state. -/
def sendPost (s : EndpointState) (tag : Option Nat) (force_tag : Bool) :
    Except PyErr (Nat × EndpointState) :=
  match s._ep with
  | none => .error .attributeError
  | some h =>
    match h.err with
    | some e => .error e
    | none =>
      if s.closed then .error .ucxCloseError
      else
        match resolveSendTag s._tags tag force_tag with
        | .error e => .error e
        | .ok t => .ok (t, { s with _send_count := s._send_count + 1 })

/-- The synchronous prefix of `Endpoint.send_multi` (lines 689-711): the
same gating and tag selection as `send`, for the scatter-gather call
`self._ep.tag_send_multi` (the buffers-list validation is elided). -/
def sendMultiPost (s : EndpointState) (tag : Option Nat) (force_tag : Bool) :
    Except PyErr (Nat × EndpointState) :=
  match s._ep with
  | none => .error .attributeError
  | some h =>
    match h.err with
    | some e => .error e
    | none =>
      if s.closed then .error .ucxCloseError
      else
        match resolveSendTag s._tags tag force_tag with
        | .error e => .error e
        | .ok t => .ok (t, { s with _send_count := s._send_count + 1 })

/-- How `await request.wait()` resolved inside the `try` of `send` /
`send_multi`. -/
inductive WaitOutcome where
  | completed
  | canceled
deriving DecidableEq

/-- The `except UCXCanceled` handler of `Endpoint.send` (lines 661-668):
re-raise the cancellation when `self._ep is None` (the endpoint was already
closed and destroyed), otherwise fall off the handler and return `None`.
`ep_at_handler` is the value of `self._ep` when the handler runs — a
concurrent teardown during the await may have dropped it. -/
def sendCanceledHandler (ep_at_handler : Option UCXEndpoint) (w : WaitOutcome) :
    Except PyErr Unit :=
  match w with
  | .completed => .ok ()
  | .canceled =>
    match ep_at_handler with
    | none => .error .ucxCanceled
    | some _ => .ok ()

/-- The identical `except UCXCanceled` handler of `Endpoint.send_multi`
(lines 713-719). -/
def sendMultiCanceledHandler (ep_at_handler : Option UCXEndpoint)
    (w : WaitOutcome) : Except PyErr Unit :=
  match w with
  | .completed => .ok ()
  | .canceled =>
    match ep_at_handler with
    | none => .error .ucxCanceled
    | some _ => .ok ()

/-- The synchronous prefix of `Endpoint.recv` (lines 764-791): tag
selection, then `self._ctx.worker.tag_probe(tag)` — an attribute lookup on
`None` when the endpoint was aborted — and, only when no matching message
is queued, `self._ep.raise_on_error()` and the closed gate.  `queued`
models the transport state `tag_probe` consults; on success the wire tag
for `self._ep.tag_recv` is returned. -/
def recvGate (s : EndpointState) (queued : Nat → Bool) (tag : Option Nat)
    (force_tag : Bool) : Except PyErr Nat :=
  match resolveRecvTag s._tags tag force_tag with
  | .error e => .error e
  | .ok t =>
    match s._ctx with
    | none => .error .attributeError
    | some _ =>
      if queued t then .ok t
      else
        match s._ep with
        | none => .error .attributeError
        | some h =>
          match h.err with
          | some e => .error e
          | none =>
            if s.closed then .error .ucxCloseError
            else .ok t

/-- The absolute threshold `close_after_n_recv` works with (lines 907-908):
`n += self._finished_recv_count` unless counting from endpoint creation. -/
def absCloseThreshold (s : EndpointState) (n : Nat)
    (count_from_ep_creation : Bool) : Nat :=
  if count_from_ep_creation then n else n + s._finished_recv_count

/-- `Endpoint.close_after_n_recv(n, count_from_ep_creation)`
(lines 896-922): normalize `n` to an absolute finished-receive count, raise
`UCXError` if a threshold is already armed, abort synchronously when the
absolute threshold equals the current finished count, arm it when greater,
and raise `UCXError` when it is below. -/
def EndpointState.close_after_n_recv (s : EndpointState) (n : Nat)
    (count_from_ep_creation : Bool) : Except PyErr EndpointState :=
  let nAbs := absCloseThreshold s n count_from_ep_creation
  match s._close_after_n_recv with
  | some _ => .error .ucxError
  | none =>
    if nAbs = s._finished_recv_count then .ok s.abort
    else if nAbs > s._finished_recv_count then
      .ok { s with _close_after_n_recv := some nAbs }
    else .error .ucxError

/-- The progress mode after `_check_progress_mode` validation (line 247):
one of `"thread"`, `"thread-polling"`, `"polling"`. -/
inductive ProgressMode where
  | thread
  | threadPolling
  | polling
deriving DecidableEq

/-- One progress binding held in `self.progress_tasks`: a `ThreadMode` or
`PollingMode` object constructed for one event loop (lines 495-500).
Event loops are identified by a numeric id. -/
structure ProgressTask where
  task_loop : Nat
  thread_mode : Bool
  polling : Bool
deriving DecidableEq

/-- Modelled from the spec and Python semantics: `ThreadMode` and
`PollingMode` come from `.continuous_ucx_progress`, which is not among the
provided sources, and the spec describes them only as per-scheduler
bindings; neither defines custom equality, so the membership test
`loop in self.progress_tasks` (line 492) compares an event loop against
task objects under default identity equality, which never holds. -/
def loopEqProgressTask : Nat → ProgressTask → Bool :=
  fun _ _ => false

/-- The task constructed for the selected mode (lines 495-500). -/
def mkProgressTask (mode : ProgressMode) (loop : Nat) : ProgressTask :=
  match mode with
  | .thread => ⟨loop, true, false⟩
  | .threadPolling => ⟨loop, true, true⟩
  | .polling => ⟨loop, false, false⟩

/-- `ApplicationContext.continuous_ucx_progress(event_loop)`
(lines 476-502) acting on `self.progress_tasks`: return unchanged when
`loop in self.progress_tasks`, otherwise append the new binding. -/
def continuous_ucx_progress (mode : ProgressMode)
    (progress_tasks : List ProgressTask) (loop : Nat) : List ProgressTask :=
  if progress_tasks.any (fun t => loopEqProgressTask loop t) then
    progress_tasks
  else progress_tasks ++ [mkProgressTask mode loop]

/-- The value the body of
`ApplicationContext._check_enable_delayed_submission` (lines 258-268)
computes into its local variable: the explicit argument if given, else the
`UCXPY_ENABLE_DELAYED_SUBMISSION` environment variable (`False` only for
the string `"0"`), else `True`. -/
def checkEnableDelayedSubmissionValue (enable_delayed_submission : Option Bool)
    (env : Option String) : Option Bool :=
  match enable_delayed_submission with
  | some b => some b
  | none =>
    match env with
    | some v => some (if v = "0" then false else true)
    | none => some true

/-- `ApplicationContext._check_enable_delayed_submission` (lines 258-268):
the body assigns the computed flag to its local variable but contains no
return statement, so as a Python function it returns `None` on every
input. -/
def _check_enable_delayed_submission (enable_delayed_submission : Option Bool)
    (env : Option String) : Option Bool :=
  let _ := checkEnableDelayedSubmissionValue enable_delayed_submission env
  none

/-- The keyword arguments `ApplicationContext.__init__` hands to
`ucx_api.UCXWorker` (lines 224-228). -/
structure UCXWorkerArgs where
  enable_delayed_submission : Option Bool
  enable_python_future : Bool
deriving DecidableEq

/-- Lines 215-228 of `ApplicationContext.__init__`: the delayed-submission
flag passed to the worker is whatever `_check_enable_delayed_submission`
returned (the python-future check is elided to its boolean result). -/
def initWorkerArgs (enable_delayed_submission : Option Bool)
    (env : Option String) (enable_python_future : Bool) : UCXWorkerArgs :=
  { enable_delayed_submission :=
      _check_enable_delayed_submission enable_delayed_submission env
    enable_python_future := enable_python_future }

/-- The names bound at module level in `core.py`: the imports of lines 5-27
and the top-level definitions. -/
def moduleGlobals : List String :=
  ["array", "asyncio", "gc", "logging", "os", "struct", "threading",
   "weakref", "partial", "close_fd", "Queue", "ucx_api", "Array",
   "UCXBaseException", "UCXCanceled", "UCXCloseError",
   "UCXConnectionResetError", "UCXError", "PollingMode", "ThreadMode",
   "hash64bits", "logger", "_ctx", "_get_ctx", "exchange_peer_info",
   "_listener_handler_coroutine", "_listener_handler",
   "_run_request_notifier", "_notifier_coroutine", "_notifierThread",
   "ApplicationContext", "Listener", "Endpoint", "init", "reset",
   "stop_notifier_thread", "get_ucx_version", "progress", "get_config",
   "create_listener", "create_endpoint",
   "create_endpoint_from_worker_address", "continuous_ucx_progress",
   "get_ucp_worker"]

/-- The local names of `ApplicationContext.start_notifier_thread`
(lines 290-299): only its parameter `self` — the body assigns attributes of
`self`, never a local variable. -/
def startNotifierThreadLocals : List String := ["self"]

/-- CPython name resolution for a method body: locals, then module
globals; an unbound name raises `NameError`. -/
def resolveName (locals : List String) (n : String) : Except PyErr Unit :=
  if locals.contains n || moduleGlobals.contains n then .ok ()
  else .error .nameError

/-- Evaluate a list of name references in order; the first unresolved one
raises `NameError`. -/
def evalNames (locals : List String) : List String → Except PyErr Unit
  | [] => .ok ()
  | n :: rest =>
    match resolveName locals n with
    | .error e => .error e
    | .ok _ => evalNames locals rest

/-- The names referenced by the enabled branch of `start_notifier_thread`
(lines 292-299), in CPython evaluation order: `logger.debug(...)`;
`self.notifier_thread_q = Queue()` (right-hand side first);
`self.notifier_thread = threading.Thread(target=_notifierThread,
args=(loop, self.worker, self.notifier_thread_q), name=...)` — the callee,
then the keyword values in textual order, the `args` tuple left to right;
finally `self.notifier_thread.start()`. -/
def startNotifierThreadEnabledRefs : List String :=
  ["logger", "Queue", "self", "threading", "_notifierThread", "loop",
   "self", "self", "self", "self"]

/-- Whether `start_notifier_thread` got a thread running. -/
inductive NotifierOutcome where
  | started
  | notStarted
deriving DecidableEq

/-- `ApplicationContext.start_notifier_thread` (lines 290-304): when
`self.worker.is_python_future_enabled()` holds, evaluate the enabled
branch — whose `args` tuple references the name `loop` — and start the
thread; otherwise log and do nothing. -/
def start_notifier_thread (python_future_enabled : Bool) :
    Except PyErr NotifierOutcome :=
  if python_future_enabled then
    match evalNames startNotifierThreadLocals startNotifierThreadEnabledRefs with
    | .error e => .error e
    | .ok _ => .ok .started
  else .ok .notStarted

/-- A healthy transport handle for concrete examples. -/
def sampleHandle : UCXEndpoint := { handle := 7, alive := true, err := none }

/-- A concrete negotiated tag set. -/
def sampleTags : Tags :=
  { msg_send := 11, msg_recv := 12, ctrl_send := 13, ctrl_recv := 14 }

/-- A freshly handshaken endpoint: live handle, context present, all
counters zero, no threshold armed. -/
def sampleOpenEndpoint : EndpointState :=
  { _ep := some sampleHandle
    _ctx := some ()
    _send_count := 0
    _recv_count := 0
    _finished_recv_count := 0
    _shutting_down_peer := false
    _close_after_n_recv := none
    _tags := some sampleTags }

/-- The same endpoint after three completed receives. -/
def endpointAfter3Recvs : EndpointState :=
  { sampleOpenEndpoint with _recv_count := 3, _finished_recv_count := 3 }

/-- C1, counterexample: on the listener side (`listener=True`),
`exchange_peer_info` posts its stream send first (lines 56-60), so its
trace is not the recv-then-send order the claim states for the
listener-side acceptor. -/
theorem C1_counterexample :
    (exchange_peer_info 0 0 true []).trace
        = [.streamSend, .awaitPoint, .streamRecv, .awaitPoint] ∧
    (exchange_peer_info 0 0 true []).trace
        ≠ [.streamRecv, .awaitPoint, .streamSend, .awaitPoint] := by
  decide

/-- C1, amended: in the handshake tag exchange the listener-side acceptor
performs a strict send-then-recv and the connector performs recv-then-send,
with an await suspension point after each one-way transfer; the ordering is
fixed by the listener/connector role. -/
theorem C1_exchange_order_amended (msg_tag ctrl_tag : Nat)
    (peer_bytes : List Nat) :
    (exchange_peer_info msg_tag ctrl_tag true peer_bytes).trace
        = [.streamSend, .awaitPoint, .streamRecv, .awaitPoint] ∧
    (exchange_peer_info msg_tag ctrl_tag false peer_bytes).trace
        = [.streamRecv, .awaitPoint, .streamSend, .awaitPoint] :=
  ⟨rfl, rfl⟩

/-- C2, counterexample: when the endpoint has already been torn down
locally (`self._ep is None`), the `except UCXCanceled` handlers of `send`
and `send_multi` re-raise the cancellation instead of swallowing it as the
claim states. -/
theorem C2_counterexample :
    sendCanceledHandler none .canceled = .error .ucxCanceled ∧
    sendCanceledHandler none .canceled ≠ .ok () ∧
    sendMultiCanceledHandler none .canceled ≠ .ok () := by
  decide

/-- C2, amended: for every send (and send_multi) call that completes with
a cancellation signal, the cancellation is re-raised to the caller exactly
when the endpoint has already been torn down locally (its handle dropped);
while the handle is still present the cancellation is swallowed and the
call returns normally. -/
theorem C2_canceled_reraise_amended (h : UCXEndpoint) :
    sendCanceledHandler none .canceled = .error .ucxCanceled ∧
    sendCanceledHandler (some h) .canceled = .ok () ∧
    sendCanceledHandler (some h) .completed = .ok () ∧
    sendMultiCanceledHandler none .canceled = .error .ucxCanceled ∧
    sendMultiCanceledHandler (some h) .canceled = .ok () ∧
    sendMultiCanceledHandler (some h) .completed = .ok () :=
  ⟨rfl, rfl, rfl, rfl, rfl, rfl⟩

/-- C3, counterexample: after `abort()` the handle is `None`, so `send`
fails at `self._ep.raise_on_error()` and `recv` at
`self._ctx.worker.tag_probe(...)` with an `AttributeError`, not with the
closed-endpoint `UCXCloseError` the claim states. -/
theorem C3_counterexample :
    sendPost sampleOpenEndpoint.abort none false = .error .attributeError ∧
    recvGate sampleOpenEndpoint.abort (fun _ => false) none false
        = .error .attributeError ∧
    (Except.error PyErr.attributeError : Except PyErr (Nat × EndpointState))
        ≠ .error .ucxCloseError := by
  refine ⟨rfl, rfl, by decide⟩

/-- C3, amended: for every endpoint with a negotiated tag set on which
`abort()` has already been called, a subsequent `send()`, `send_multi()` or
`recv()` call fails with `AttributeError` — the dropped `None` handle (for
send) or `None` context (for recv) is dereferenced before the
closed-endpoint check can raise `UCXCloseError`. -/
theorem C3_abort_gate_amended (s : EndpointState) (ts : Tags)
    (hts : s._tags = some ts) (tag : Option Nat) (f : Bool)
    (queued : Nat → Bool) :
    sendPost s.abort tag f = .error .attributeError ∧
    sendMultiPost s.abort tag f = .error .attributeError ∧
    recvGate s.abort queued tag f = .error .attributeError := by
  refine ⟨rfl, rfl, ?_⟩
  unfold recvGate
  rw [show s.abort._tags = s._tags from rfl, hts]
  cases tag with
  | none => rfl
  | some t => cases f <;> rfl

/-- C3, witness for the amended theorem at a concrete aborted endpoint. -/
theorem C3_witness :
    sendPost sampleOpenEndpoint.abort none false = .error .attributeError ∧
    sendMultiPost sampleOpenEndpoint.abort none false = .error .attributeError ∧
    recvGate sampleOpenEndpoint.abort (fun _ => true) none false
        = .error .attributeError :=
  C3_abort_gate_amended sampleOpenEndpoint sampleTags rfl none false
    (fun _ => true)

/-- C4, code bug: registering progress for the same event loop twice is
not idempotent.  The membership test `loop in self.progress_tasks`
(line 492) compares the event loop against `ThreadMode`/`PollingMode`
objects and never holds, so the second call appends a duplicate binding
instead of being skipped, contradicting the inline comment on line 493. -/
theorem C4_progress_duplicate :
    continuous_ucx_progress .thread (continuous_ucx_progress .thread [] 0) 0
        = [mkProgressTask .thread 0, mkProgressTask .thread 0] ∧
    (continuous_ucx_progress .thread
        (continuous_ucx_progress .thread [] 0) 0).length = 2 ∧
    continuous_ucx_progress .thread (continuous_ucx_progress .thread [] 0) 0
        ≠ continuous_ucx_progress .thread [] 0 := by
  decide

/-- C5: for every received 24-byte `(msg_tag, ctrl_tag, checksum)` triple,
`exchange_peer_info` returns the peer tags exactly when the checksum equals
the recomputed `hash64bits(msg_tag, ctrl_tag)`; on a mismatch it raises
`RuntimeError` and no tag set is produced. -/
theorem C5_checksum_gate (mt ct : Nat) (L : Bool) (m c k : Nat)
    (hm : m < 18446744073709551616) (hc : c < 18446744073709551616)
    (hk : k < 18446744073709551616) :
    ((exchange_peer_info mt ct L (packQQQ m c k)).result = .ok ⟨m, c, k⟩
        ↔ hash2 m c = k) ∧
    (hash2 m c ≠ k →
      (exchange_peer_info mt ct L (packQQQ m c k)).result
          = .error .runtimeError) := by
  have hu : unpackQQQ (packQQQ m c k) = (m, c, k) :=
    unpack_packQQQ m c k hm hc hk
  have hres : (exchange_peer_info mt ct L (packQQQ m c k)).result
      = exchangeValidate (packQQQ m c k) := rfl
  rw [hres]
  unfold exchangeValidate
  rw [hu]
  by_cases hck : hash2 m c = k
  · simp [hck]
  · simp [hck]

/-- C5, witness: a correctly checksummed triple is accepted. -/
theorem C5_witness :
    (exchange_peer_info 0 0 true (packQQQ 1 2 (hash2 1 2))).result
        = .ok ⟨1, 2, hash2 1 2⟩ :=
  (C5_checksum_gate 0 0 true 1 2 (hash2 1 2) (by norm_num) (by norm_num)
    (hash2_lt 1 2)).1.mpr rfl

/-- C6: when a listener-side peer A and a connector-side peer B complete
the handshake against each other, A keeps its own tags for receiving and
the peer tags for sending, so `A.msg_send = B.msg_recv`,
`B.msg_send = A.msg_recv`, and symmetrically for the control tags. -/
theorem C6_handshake_roundtrip (mA cA mB cB : Nat)
    (hmA : mA < 18446744073709551616) (hcA : cA < 18446744073709551616)
    (hmB : mB < 18446744073709551616) (hcB : cB < 18446744073709551616) :
    ∃ tA tB : Tags,
      listenerSideTags mA cA (myInfo mB cB) = .ok tA ∧
      connectorSideTags mB cB (myInfo mA cA) = .ok tB ∧
      tA.msg_send = tB.msg_recv ∧ tB.msg_send = tA.msg_recv ∧
      tA.ctrl_send = tB.ctrl_recv ∧ tB.ctrl_send = tA.ctrl_recv := by
  refine ⟨⟨mB, mA, cB, cA⟩, ⟨mA, mB, cA, cB⟩, ?_, ?_, rfl, rfl, rfl, rfl⟩
  · unfold listenerSideTags
    rw [show (exchange_peer_info mA cA true (myInfo mB cB)).result
        = exchangeValidate (myInfo mB cB) from rfl,
      exchangeValidate_myInfo mB cB hmB hcB]
    rfl
  · unfold connectorSideTags
    rw [show (exchange_peer_info mB cB false (myInfo mA cA)).result
        = exchangeValidate (myInfo mA cA) from rfl,
      exchangeValidate_myInfo mA cA hmA hcA]
    rfl

/-- C6, witness at concrete locally generated tags. -/
theorem C6_witness :
    ∃ tA tB : Tags,
      listenerSideTags 1 2 (myInfo 3 4) = .ok tA ∧
      connectorSideTags 3 4 (myInfo 1 2) = .ok tB ∧
      tA.msg_send = tB.msg_recv ∧ tB.msg_send = tA.msg_recv ∧
      tA.ctrl_send = tB.ctrl_recv ∧ tB.ctrl_send = tA.ctrl_recv :=
  C6_handshake_roundtrip 1 2 3 4 (by norm_num) (by norm_num) (by norm_num)
    (by norm_num)

/-- C7: on an open endpoint with negotiated tags, `send` and `send_multi`
use the negotiated `msg_send` tag when `tag` is `None`, the namespaced
`hash64bits(msg_send, hash(tag))` when a tag is given without `force_tag`,
and the given tag verbatim when `force_tag` is set — incrementing the send
counter in each case. -/
theorem C7_send_wire_tag (s : EndpointState) (h : UCXEndpoint) (ts : Tags)
    (hep : s._ep = some h) (herr : h.err = none) (halive : h.alive = true)
    (hts : s._tags = some ts) (t : Nat) (f : Bool) :
    sendPost s none f
        = .ok (ts.msg_send, { s with _send_count := s._send_count + 1 }) ∧
    sendPost s (some t) false
        = .ok (hash2 ts.msg_send (pyHash t),
            { s with _send_count := s._send_count + 1 }) ∧
    sendPost s (some t) true
        = .ok (t, { s with _send_count := s._send_count + 1 }) ∧
    sendMultiPost s none f
        = .ok (ts.msg_send, { s with _send_count := s._send_count + 1 }) ∧
    sendMultiPost s (some t) false
        = .ok (hash2 ts.msg_send (pyHash t),
            { s with _send_count := s._send_count + 1 }) ∧
    sendMultiPost s (some t) true
        = .ok (t, { s with _send_count := s._send_count + 1 }) := by
  have hclosed : s.closed = false := by
    simp [EndpointState.closed, hep, halive]
  refine ⟨?_, ?_, ?_, ?_, ?_, ?_⟩ <;>
    simp [sendPost, sendMultiPost, hep, herr, hclosed, resolveSendTag, hts]

/-- C7, witness: a namespaced user tag on a concrete open endpoint. -/
theorem C7_witness :
    sendPost sampleOpenEndpoint (some 5) false
        = .ok (hash2 sampleTags.msg_send (pyHash 5),
            { sampleOpenEndpoint with
                _send_count := sampleOpenEndpoint._send_count + 1 }) :=
  (C7_send_wire_tag sampleOpenEndpoint sampleHandle sampleTags rfl rfl rfl rfl
    5 false).2.1

/-- C8, counterexample: `close_after_n_recv(3)` with the default
`count_from_ep_creation=False` on an endpoint that has already completed 3
receives normalizes `n` to 6 and arms the threshold — the endpoint keeps
its handle and is not aborted synchronously as the claim states. -/
theorem C8_counterexample :
    endpointAfter3Recvs.close_after_n_recv 3 false
        = .ok { endpointAfter3Recvs with _close_after_n_recv := some 6 } ∧
    ({ endpointAfter3Recvs with _close_after_n_recv := some 6 }
        : EndpointState)._ep ≠ none ∧
    endpointAfter3Recvs.close_after_n_recv 3 false
        ≠ .ok endpointAfter3Recvs.abort := by
  decide

/-- C8, amended: `close_after_n_recv` normalizes `n` to an absolute
finished-receive count, fails with `UCXError` if a threshold is already
armed, aborts immediately and synchronously when the absolute threshold
equals the current finished-receive count, arms it when greater, and fails
with `UCXError` when it is below; in particular
`close_after_n_recv(3, count_from_ep_creation=True)` on an endpoint that
has already completed 3 receives aborts synchronously, while
`close_after_n_recv(3)` under the default counting arms the absolute
threshold at 6. -/
theorem C8_close_after_n_recv_amended (s : EndpointState) (n : Nat)
    (cfc : Bool) :
    (∀ m, s._close_after_n_recv = some m →
        s.close_after_n_recv n cfc = .error .ucxError) ∧
    (s._close_after_n_recv = none →
      absCloseThreshold s n cfc = s._finished_recv_count →
        s.close_after_n_recv n cfc = .ok s.abort) ∧
    (s._close_after_n_recv = none →
      absCloseThreshold s n cfc > s._finished_recv_count →
        s.close_after_n_recv n cfc
          = .ok { s with
              _close_after_n_recv := some (absCloseThreshold s n cfc) }) ∧
    (s._close_after_n_recv = none →
      absCloseThreshold s n cfc < s._finished_recv_count →
        s.close_after_n_recv n cfc = .error .ucxError) ∧
    endpointAfter3Recvs.close_after_n_recv 3 true
        = .ok endpointAfter3Recvs.abort ∧
    endpointAfter3Recvs.close_after_n_recv 3 false
        = .ok { endpointAfter3Recvs with _close_after_n_recv := some 6 } := by
  refine ⟨?_, ?_, ?_, ?_, by decide, by decide⟩
  · intro m hm
    simp [EndpointState.close_after_n_recv, hm]
  · intro h0 heq
    simp [EndpointState.close_after_n_recv, h0, heq]
  · intro h0 hgt
    have hne : absCloseThreshold s n cfc ≠ s._finished_recv_count :=
      Nat.ne_of_gt hgt
    simp [EndpointState.close_after_n_recv, h0, hne, hgt]
  · intro h0 hlt
    have hne : absCloseThreshold s n cfc ≠ s._finished_recv_count :=
      Nat.ne_of_lt hlt
    have hng : ¬ absCloseThreshold s n cfc > s._finished_recv_count := by
      omega
    simp [EndpointState.close_after_n_recv, h0, hne, hng]

/-- C8, witness: arming a future threshold on a concrete endpoint. -/
theorem C8_witness :
    endpointAfter3Recvs.close_after_n_recv 4 false
        = .ok { endpointAfter3Recvs with _close_after_n_recv := some 7 } :=
  (C8_close_after_n_recv_amended endpointAfter3Recvs 4 false).2.2.1 rfl
    (by decide)

/-- C9: whenever the worker reports Python-future notification enabled,
`start_notifier_thread` evaluates the unbound name `loop` in the `args`
tuple of the `threading.Thread` call and raises `NameError`, so the
notifier thread is never started successfully in that configuration. -/
theorem C9_notifier_thread_nameerror (python_future_enabled : Bool)
    (hb : python_future_enabled = true) :
    start_notifier_thread python_future_enabled = .error .nameError ∧
    ∀ r, start_notifier_thread python_future_enabled ≠ .ok r := by
  subst hb
  refine ⟨by decide, ?_⟩
  intro r hr
  rw [show start_notifier_thread true = .error .nameError by decide] at hr
  exact Except.noConfusion hr

/-- C9, witness at the enabled configuration. -/
theorem C9_witness : start_notifier_thread true = .error .nameError :=
  (C9_notifier_thread_nameerror true rfl).1

/-- C10: `_check_enable_delayed_submission` returns `None` on every input —
the explicit argument and the `UCXPY_ENABLE_DELAYED_SUBMISSION` environment
variable only feed a local that is never returned — so the worker is always
constructed with `enable_delayed_submission=None`. -/
theorem C10_delayed_submission_none (enable_delayed_submission : Option Bool)
    (env : Option String) (enable_python_future : Bool) :
    _check_enable_delayed_submission enable_delayed_submission env = none ∧
    (initWorkerArgs enable_delayed_submission env
        enable_python_future).enable_delayed_submission = none :=
  ⟨rfl, rfl⟩

end Ucxx
